import Mathlib

/-
Verification of the bbl compiler core: a shallow embedding of the type
checker (frontend/src/typeck.rs), the code generator (backend/src/codegen.rs)
and the block assembler (cpp_codegen/src/lib.rs), together with theorems
settling the specification claims about them.

Conventions of the embedding:
- Rust enums become Lean inductives, structs become structures, with the
  source field and function names kept where Lean allows them.
- The mutable `TypeChecker { symbol_table }` receiver is passed explicitly:
  `check_expr` takes the table and returns the (possibly mutated) table next
  to the `Result` value, so that the table state after an early `?` return
  is observable exactly as it is in the Rust code.
- `HashMap<String, Type>` is modelled as an association list read through
  `lookupVar`; `insert` prepends, which has the same lookup semantics as
  `HashMap::insert` (the newest binding for a key wins).
- The process-wide `static mut COUNTER` inside `generate_variable_name` is
  modelled by threading a `Nat` counter through all code-generation
  functions and across `generate` invocations.
- The `todo!()` arms of `process_expression` terminate the process
  abnormally; they are modelled by the `none` result of
  `Option (Block × Nat)`, while every normally returning path yields `some`.
-/

namespace BBL

/-- Source-language types: the Rust enum `Type` from the frontend AST
(`Int`, `Float`, `String`, `Bool`, `None`, `List(Box<Type>)`,
`Tuple(Vec<Type>)`, `FunctionType(Vec<Type>, Box<Type>)`). Named `Ty`
because `Type` is reserved in Lean. -/
inductive Ty where
  | Int
  | Float
  | String
  | Bool
  | None
  | List (t : Ty)
  | Tuple (ts : List Ty)
  | FunctionType (params : List Ty) (ret : Ty)

mutual

/-- Structural equality on `Ty`, the derived `PartialEq` of the Rust enum. -/
def Ty.beq : Ty → Ty → Bool
  | .Int, .Int => true
  | .Float, .Float => true
  | .String, .String => true
  | .Bool, .Bool => true
  | .None, .None => true
  | .List t, .List u => Ty.beq t u
  | .Tuple ts, .Tuple us => beqTyList ts us
  | .FunctionType ps r, .FunctionType qs s => beqTyList ps qs && Ty.beq r s
  | _, _ => false

/-- Elementwise equality of type lists (the `Vec<Type>` payloads). -/
def beqTyList : List Ty → List Ty → Bool
  | [], [] => true
  | t :: ts, u :: us => Ty.beq t u && beqTyList ts us
  | _, _ => false

end

theorem beq_iff_eq_all :
    (∀ t u, Ty.beq t u = true ↔ t = u) ∧
    (∀ ts us, beqTyList ts us = true ↔ ts = us) := by
  apply Ty.beq.mutual_induct <;> intros <;> simp_all [Ty.beq, beqTyList]
  · rename_i t x h1 h2 h3 h4 h5 h6 h7 h8
    cases t <;> cases x <;> simp_all [Ty.beq]
    exact fun _ _ => h8 _ _ _ _ rfl rfl rfl rfl
  · rename_i ts xs h1 h2
    cases ts <;> cases xs <;> simp_all [Ty.beq, beqTyList]
    exact absurd rfl (h2 _ _ _ _ rfl rfl rfl)

instance : DecidableEq Ty := fun t u => decidable_of_iff _ (beq_iff_eq_all.1 t u)

mutual

/-- The `{:?}` (derived `Debug`) rendering of a `Type`, as interpolated into
the checker's error messages. -/
def fmtTy : Ty → String
  | .Int => "Int"
  | .Float => "Float"
  | .String => "String"
  | .Bool => "Bool"
  | .None => "None"
  | .List t => "List(" ++ fmtTy t ++ ")"
  | .Tuple ts => "Tuple([" ++ fmtTyList ts ++ "])"
  | .FunctionType ps r => "FunctionType([" ++ fmtTyList ps ++ "], " ++ fmtTy r ++ ")"

/-- The `Debug` rendering of a `Vec<Type>` body, comma separated. -/
def fmtTyList : List Ty → String
  | [] => ""
  | [t] => fmtTy t
  | t :: ts => fmtTy t ++ ", " ++ fmtTyList ts

end

/-- AST struct `Identifier`: a name reference. -/
structure Identifier where
  value : String

/-- AST struct `TypedIdentifier`: a name paired with a declared type,
used at binding sites. -/
structure TypedIdentifier where
  value : Identifier
  associated_type : Ty

/-- The AST expression sum type. Field names follow the Rust structs as the
checker and generator access them (`assign.target`, `binop.left`,
`list.elems`, `repexpr.num_iterations`, ...). The `Float` literal's `f64`
payload is modelled by its printed form, which is all the pipeline ever
uses. The `is_const` flag of `AssignmentExpr` is the const-ness flag of the
data model; neither the checker nor the generator reads it. -/
inductive Expr where
  | Integer (value : Int)
  | Float (value : String)
  | String (value : String)
  | Boolean (value : Bool)
  | Identifier (id : Identifier)
  | AssignmentExpr (target : TypedIdentifier) (value : Expr) (is_const : Bool)
  | ReassignmentExpr (target : Identifier) (value : Expr)
  | BinOp (left : Expr) (op : String) (right : Expr)
  | UnOp (op : String) (arg : Expr)
  | ListExpr (elems : List Expr)
  | IfExpr (condition : Expr) (then_block : List Expr) (else_block : Option (List Expr))
  | RepExpr (num_iterations : Expr) (body : List Expr)
  | PrintExpr (arg : Expr)
  | FunctionDef (name : Identifier) (args : List TypedIdentifier) (body : List Expr)
  | ReturnExpr (value : Expr)
  | NoneExpr
  | MethodCallExpr (method_name : Identifier) (args : List Expr)

/-- AST struct `Program`: an ordered sequence of top-level expressions. -/
structure Program where
  expressions : List Expr

/-- The checker's `symbol_table : HashMap<String, Type>`, modelled as an
association list in which the most recent binding of a key is the one
`lookupVar` sees. -/
abbrev SymbolTable := List (String × Ty)

/-- `symbol_table.get(name)`. -/
def lookupVar : SymbolTable → String → Option Ty
  | [], _ => none
  | (k, v) :: rest, n => if k = n then some v else lookupVar rest n

/-- `symbol_table.insert(name, ty)`. -/
def insertVar (tbl : SymbolTable) (k : String) (v : Ty) : SymbolTable :=
  (k, v) :: tbl

/-- `TypeError { message: String }`. -/
structure TypeError where
  message : String

/-- `TypeResult<T> = Result<T, TypeError>`. -/
abbrev TypeResult (α : Type) := Except TypeError α

/-- Whether the character list `pre` is an initial segment of `s`. -/
def prefixChars : List Char → List Char → Bool
  | [], _ => true
  | _ :: _, [] => false
  | a :: ns, b :: hs => a = b && prefixChars ns hs

/-- Whether the string `s` begins with `pre` (a kernel-reducible
`String.startsWith`). -/
def strStarts (s pre : String) : Bool :=
  prefixChars pre.data s.data

/-- Whether `needle` occurs anywhere in the character list. -/
def subChars (needle : List Char) : List Char → Bool
  | [] => prefixChars needle []
  | c :: rest => prefixChars needle (c :: rest) || subChars needle rest

/-- Whether the string `needle` occurs anywhere inside `hay`. -/
def strContains (hay needle : String) : Bool :=
  subChars needle.data hay.data

/-- Classifier for the `UndefinedVariable` error of the taxonomy: the
checker emits it as a message beginning `Undefined variable`. -/
def isUndefinedVariable (e : TypeError) : Bool :=
  strStarts e.message "Undefined variable"

/-- Classifier for the `TypeMismatch` error of the taxonomy: assignment,
reassignment and binary-operation mismatches begin `Type mismatch`, and the
list-literal divergence message begins `List elements have mismatched
types`. -/
def isTypeMismatch (e : TypeError) : Bool :=
  strStarts e.message "Type mismatch" ||
    strStarts e.message "List elements have mismatched types"

/-- Classifier for the `UnsupportedOperator` error of the taxonomy
(binary `Operator '..' not supported for type ..` and
`Unary '..' not supported for type ..`). -/
def isUnsupportedOperator (e : TypeError) : Bool :=
  strStarts e.message "Operator " || strStarts e.message "Unary "

/-- Classifier for the `UnknownOperator` error of the taxonomy
(`Unknown operator '..'` and `Unknown unary operator '..'`). -/
def isUnknownOperator (e : TypeError) : Bool :=
  strStarts e.message "Unknown"

/-- Classifier for the `InvalidCondition` error of the taxonomy. -/
def isInvalidCondition (e : TypeError) : Bool :=
  strStarts e.message "Condition in if expression"

/-- Classifier for the `InvalidLoopCount` error of the taxonomy. -/
def isInvalidLoopCount (e : TypeError) : Bool :=
  strStarts e.message "rep count"

/-- Classifier for the `UnsupportedConstruct` error of the taxonomy. -/
def isUnsupportedConstruct (e : TypeError) : Bool :=
  strStarts e.message "Method calls not supported"

/-- The `FunctionDef` arm's loop inserting every parameter into the symbol
table (`for arg in &func.args { self.symbol_table.insert(..) }`). -/
def insertArgs (tbl : SymbolTable) : List TypedIdentifier → SymbolTable
  | [] => tbl
  | a :: rest => insertArgs (insertVar tbl a.value.value a.associated_type) rest

mutual

/-- `TypeChecker::check_expr`, with the `&mut self` symbol table passed and
returned explicitly: the returned table is the table state at the moment
the Rust method returns, on the error paths included. -/
def check_expr (tbl : SymbolTable) : Expr → SymbolTable × TypeResult Ty
  | .Integer _ => (tbl, .ok .Int)
  | .Float _ => (tbl, .ok .Float)
  | .String _ => (tbl, .ok .String)
  | .Boolean _ => (tbl, .ok .Bool)
  | .Identifier id =>
    match lookupVar tbl id.value with
    | some t => (tbl, .ok t)
    | none => (tbl, .error ⟨"Undefined variable \x27" ++ id.value ++ "\x27"⟩)
  | .AssignmentExpr target value _is_const =>
    match check_expr tbl value with
    | (tbl1, .error e) => (tbl1, .error e)
    | (tbl1, .ok rhs_type) =>
      let lhs_type := target.associated_type
      if rhs_type ≠ lhs_type then
        (tbl1, .error ⟨"Type mismatch in assignment to \x27" ++ target.value.value ++
          "\x27: expected " ++ fmtTy lhs_type ++ ", got " ++ fmtTy rhs_type⟩)
      else
        (insertVar tbl1 target.value.value lhs_type, .ok lhs_type)
  | .ReassignmentExpr target value =>
    match check_expr tbl value with
    | (tbl1, .error e) => (tbl1, .error e)
    | (tbl1, .ok rhs_type) =>
      match lookupVar tbl1 target.value with
      | none => (tbl1, .error ⟨"Undefined variable \x27" ++ target.value ++ "\x27"⟩)
      | some var_type =>
        if var_type ≠ rhs_type then
          (tbl1, .error ⟨"Type mismatch in reassignment to \x27" ++ target.value ++
            "\x27: expected " ++ fmtTy var_type ++ ", got " ++ fmtTy rhs_type⟩)
        else (tbl1, .ok var_type)
  | .BinOp left op right =>
    match check_expr tbl left with
    | (tbl1, .error e) => (tbl1, .error e)
    | (tbl1, .ok left_type) =>
      match check_expr tbl1 right with
      | (tbl2, .error e) => (tbl2, .error e)
      | (tbl2, .ok right_type) =>
        if left_type ≠ right_type then
          (tbl2, .error ⟨"Type mismatch in binary operation \x27" ++ op ++
            "\x27: left is " ++ fmtTy left_type ++ ", right is " ++ fmtTy right_type⟩)
        else if op = "+" ∨ op = "-" ∨ op = "*" ∨ op = "/" then
          if left_type = .Int ∨ left_type = .Float then (tbl2, .ok left_type)
          else
            (tbl2, .error ⟨"Operator \x27" ++ op ++ "\x27 not supported for type " ++
              fmtTy left_type⟩)
        else if op = "==" ∨ op = "!=" ∨ op = "<" ∨ op = ">" ∨ op = "<=" ∨ op = ">=" then
          (tbl2, .ok .Bool)
        else (tbl2, .error ⟨"Unknown operator \x27" ++ op ++ "\x27"⟩)
  | .ListExpr elems =>
    match check_list_elems tbl none elems with
    | (tbl1, .error e) => (tbl1, .error e)
    | (tbl1, .ok elem_type) => (tbl1, .ok (.List (elem_type.getD .None)))
  | .PrintExpr arg =>
    match check_expr tbl arg with
    | (tbl1, .error e) => (tbl1, .error e)
    | (tbl1, .ok _) => (tbl1, .ok .None)
  | .IfExpr condition then_block else_block =>
    match check_expr tbl condition with
    | (tbl1, .error e) => (tbl1, .error e)
    | (tbl1, .ok cond_type) =>
      if cond_type ≠ .Bool then
        (tbl1, .error ⟨"Condition in if expression must be boolean"⟩)
      else
        match check_seq tbl1 then_block with
        | (tbl2, .error e) => (tbl2, .error e)
        | (tbl2, .ok _) =>
          match check_opt_seq tbl2 else_block with
          | (tbl3, .error e) => (tbl3, .error e)
          | (tbl3, .ok _) => (tbl3, .ok .None)
  | .RepExpr num_iterations body =>
    match check_expr tbl num_iterations with
    | (tbl1, .error e) => (tbl1, .error e)
    | (tbl1, .ok count_type) =>
      if count_type ≠ .Int then
        (tbl1, .error ⟨"rep count must be int"⟩)
      else
        match check_seq tbl1 body with
        | (tbl2, .error e) => (tbl2, .error e)
        | (tbl2, .ok _) => (tbl2, .ok .None)
  | .FunctionDef _name args body =>
    let old_table := tbl
    match check_seq (insertArgs tbl args) body with
    | (tbl2, .error e) => (tbl2, .error e)
    | (_, .ok _) =>
      (old_table, .ok (.FunctionType (args.map (·.associated_type)) .None))
  | .ReturnExpr value => check_expr tbl value
  | .UnOp op arg =>
    match check_expr tbl arg with
    | (tbl1, .error e) => (tbl1, .error e)
    | (tbl1, .ok arg_type) =>
      if op = "-" then
        if arg_type = .Int ∨ arg_type = .Float then (tbl1, .ok arg_type)
        else (tbl1, .error ⟨"Unary \x27-\x27 not supported for type " ++ fmtTy arg_type⟩)
      else if op = "!" then
        if arg_type = .Bool then (tbl1, .ok .Bool)
        else (tbl1, .error ⟨"Unary \x27!\x27 not supported for type " ++ fmtTy arg_type⟩)
      else (tbl1, .error ⟨"Unknown unary operator \x27" ++ op ++ "\x27"⟩)
  | .NoneExpr => (tbl, .ok .None)
  | .MethodCallExpr _ _ =>
    (tbl, .error ⟨"Method calls not supported in type checker yet"⟩)

/-- The `if let Some(else_block) = &ifexpr.else_block` guard of the `If`
arm: an absent else sequence checks vacuously, a present one is checked
like any other sequence. -/
def check_opt_seq (tbl : SymbolTable) : Option (List Expr) → SymbolTable × TypeResult Unit
  | none => (tbl, .ok ())
  | some es => check_seq tbl es

/-- The `self.check_expr(expr)?` loops over expression sequences (program
bodies, branch bodies, loop bodies, function bodies). -/
def check_seq (tbl : SymbolTable) : List Expr → SymbolTable × TypeResult Unit
  | [] => (tbl, .ok ())
  | e :: rest =>
    match check_expr tbl e with
    | (tbl1, .error err) => (tbl1, .error err)
    | (tbl1, .ok _) => check_seq tbl1 rest

/-- The `ListExpr` arm's element loop with its `elem_type : Option<Type>`
accumulator: the first element's type seeds the accumulator and every later
element is compared against it. -/
def check_list_elems (tbl : SymbolTable) (elem_type : Option Ty) :
    List Expr → SymbolTable × TypeResult (Option Ty)
  | [] => (tbl, .ok elem_type)
  | e :: rest =>
    match check_expr tbl e with
    | (tbl1, .error err) => (tbl1, .error err)
    | (tbl1, .ok t) =>
      match elem_type with
      | some et =>
        if et ≠ t then
          (tbl1, .error ⟨"List elements have mismatched types: " ++ fmtTy et ++
            " vs " ++ fmtTy t⟩)
        else check_list_elems tbl1 elem_type rest
      | none => check_list_elems tbl1 (some t) rest

end

/-- `TypeChecker::check_program`: checks every top-level expression in
order, stopping at the first error. -/
def check_program (tbl : SymbolTable) (program : Program) :
    SymbolTable × TypeResult Unit :=
  check_seq tbl program.expressions

mutual

/-- `cpp_codegen::Line`: either a nested block or a literal statement. -/
inductive Line where
  | Block (b : Block)
  | Statement (s : String)

/-- `cpp_codegen::Block`: optional pre-block header text, an ordered list
of lines, and an indentation depth used at render time. -/
inductive Block where
  | mk (pre_block : Option String) (statements : List Line) (indent_level : Nat)

end

/-- Field accessor for `Block.pre_block`. -/
def Block.pre_block : Block → Option String
  | .mk p _ _ => p

/-- Field accessor for `Block.statements`. -/
def Block.statements : Block → List Line
  | .mk _ s _ => s

/-- Field accessor for `Block.indent_level`. -/
def Block.indent_level : Block → Nat
  | .mk _ _ l => l

/-- `Block::new()`: no header, no statements, indentation level zero. -/
def Block.new : Block := .mk none [] 0

/-- `Block::new_with_pre_block(pre_block, indent_level)`. -/
def Block.new_with_pre_block (pre : String) (lvl : Nat) : Block :=
  .mk (some pre) [] lvl

/-- `Block::add_line` (and the `&str` variant `add_line_s`): append one
statement line. -/
def Block.add_line : Block → String → Block
  | .mk p s l, line => .mk p (s ++ [.Statement line]) l

/-- `Block::add_block`: append one nested block as a line. -/
def Block.add_block : Block → Block → Block
  | .mk p s l, b => .mk p (s ++ [.Block b]) l

/-- `" ".repeat(n)`. -/
def indentSpaces (n : Nat) : String :=
  String.mk (List.replicate n ' ')

mutual

/-- `Block::to_string`: header (when present), an opening brace, each line
indented by `4 * (indent_level + 1)` spaces and joined with newlines, and a
closing brace indented by `4 * indent_level` spaces. -/
def Block.to_string : Block → String
  | .mk pre stmts lvl =>
    (pre.getD "") ++ "\x7b\n" ++
      String.intercalate "\n" (renderLines lvl stmts) ++
      "\n" ++ indentSpaces (4 * lvl) ++ "\x7d"

/-- The render of one list of lines at a block's indentation level. -/
def renderLines (lvl : Nat) : List Line → List String
  | [] => []
  | l :: rest => (indentSpaces (4 * (lvl + 1)) ++ renderLine l) :: renderLines lvl rest

/-- The render of a single line: nested blocks recursively, statements
verbatim. -/
def renderLine : Line → String
  | .Block b => Block.to_string b
  | .Statement s => s

end

/-- `cpp_codegen::Program`: the solve block wrapped by the fixed preamble
and entry point. Named `CppProgram` because the AST `Program` already uses
the bare name. -/
structure CppProgram where
  solve_block : Block

/-- `cpp_codegen::Program::new()`: a solve block with header
`void solve() ` at indentation level zero. -/
def CppProgram.new : CppProgram :=
  ⟨Block.new_with_pre_block "void solve() " 0⟩

/-- The fixed preamble text of `cpp_codegen::Program::to_string`. -/
def cppHeader : String :=
  "\n#include <bits/stdc++.h>\nusing namespace std;\nusing ll = long long;\n"

/-- The fixed entry-point text of `cpp_codegen::Program::to_string`. -/
def cppMain : String :=
  "\nint main() \x7b\n    cin.tie(0)->sync_with_stdio(false);\n    solve();\n    return 0;\n\x7d"

/-- `cpp_codegen::Program::to_string`: preamble, rendered solve block,
entry point. -/
def CppProgram.to_string (p : CppProgram) : String :=
  cppHeader ++ p.solve_block.to_string ++ cppMain

/-- `generate_variable_name`: the fresh-name minting function. In the Rust
source the counter is a process-wide `static mut COUNTER: u32` that is
incremented before use and never reset; here the counter value is passed in
and the incremented value is returned next to the minted name. -/
def generate_variable_name (counter : Nat) : String × Nat :=
  ("var_" ++ toString (counter + 1), counter + 1)

/-- `get_type_string`: the source-type to target-type spelling table of the
code generator. -/
def get_type_string : Ty → String
  | .Int => "int"
  | .String => "string"
  | .List t => "vector<" ++ get_type_string t ++ ">"
  | _ => "auto"

mutual

/-- `process_expression`: lowers one expression into statements appended to
`context`, threading the fresh-name counter. The per-construct helpers of
the Rust file (`generate_assignment`, `generate_reassignment`,
`generate_method_call`, `generate_print`, `generate_if`, `generate_rep`,
`generate_binop`, `generate_unop`, `generate_list_expr`,
`generate_identifier`) are inlined into the match arms they are called
from, each marked by a comment. The `todo!()` arms for `FunctionDef` and
`ReturnExpr` abort the process; they yield `none`, and every normally
returning path yields `some`. -/
def process_expression (context : Block) (counter : Nat) : Expr → Option (Block × Nat)
  | .Integer i =>
    let (temp, c1) := generate_variable_name counter
    some (context.add_line ("int " ++ temp ++ " = " ++ toString i ++ ";"), c1)
  | .Float f =>
    let (temp, c1) := generate_variable_name counter
    some (context.add_line ("double " ++ temp ++ " = " ++ f ++ ";"), c1)
  | .String s =>
    let (temp, c1) := generate_variable_name counter
    some (context.add_line ("string " ++ temp ++ " = \"" ++ s ++ "\";"), c1)
  | .AssignmentExpr target value _is_const =>
    -- generate_assignment
    let var_type := get_type_string target.associated_type
    let var_name := target.value.value
    let (temp_var, c1) := generate_variable_name counter
    match process_expression context c1 value with
    | none => none
    | some (ctx1, c2) =>
      some (ctx1.add_line (var_type ++ " " ++ var_name ++ " = " ++ temp_var ++ ";"), c2)
  | .ReassignmentExpr target value =>
    -- generate_reassignment
    let (temp_var, c1) := generate_variable_name counter
    match process_expression context c1 value with
    | none => none
    | some (ctx1, c2) =>
      some (ctx1.add_line (target.value ++ " = " ++ temp_var ++ ";"), c2)
  | .MethodCallExpr method_name args =>
    -- generate_method_call
    match process_temp_seq context counter args [] with
    | none => none
    | some (ctx1, c1, arg_names) =>
      some (ctx1.add_line (method_name.value ++ "." ++ method_name.value ++ "(" ++
        String.intercalate ", " arg_names ++ ");"), c1)
  | .PrintExpr arg =>
    -- generate_print
    let (temp_var, c1) := generate_variable_name counter
    match process_expression context c1 arg with
    | none => none
    | some (ctx1, c2) =>
      some (ctx1.add_line ("cout << " ++ temp_var ++ " << endl;"), c2)
  | .IfExpr condition then_exprs else_exprs =>
    -- generate_if
    let (cond_var, c1) := generate_variable_name counter
    match process_expression context c1 condition with
    | none => none
    | some (ctx1, c2) =>
      match process_seq Block.new c2 then_exprs with
      | none => none
      | some (then_blk, c3) =>
        let ctx2 := (ctx1.add_line ("if (" ++ cond_var ++ ") \x7b")).add_block then_blk
        match else_exprs with
        | none => some (ctx2.add_line "\x7d", c3)
        | some else_vec =>
          match process_seq Block.new c3 else_vec with
          | none => none
          | some (else_blk, c4) =>
            some (((ctx2.add_line "\x7d else \x7b").add_block else_blk).add_line "\x7d", c4)
  | .RepExpr num_iterations body =>
    -- generate_rep
    let (iter_var, c1) := generate_variable_name counter
    let (count_var, c2) := generate_variable_name c1
    match process_expression context c2 num_iterations with
    | none => none
    | some (ctx1, c3) =>
      let ctx2 := (ctx1.add_line ("int " ++ iter_var ++ " = 0;")).add_line
        ("int " ++ count_var ++ " = " ++ iter_var ++ ";")
      match process_seq Block.new c3 body with
      | none => none
      | some (loop_block, c4) =>
        some (((ctx2.add_line ("for(int " ++ iter_var ++ " = 0; " ++ iter_var ++ " < " ++
          count_var ++ "; " ++ iter_var ++ "++) \x7b")).add_block loop_block).add_line "\x7d", c4)
  | .Identifier id =>
    -- generate_identifier
    let (result_var, c1) := generate_variable_name counter
    some (context.add_line ("auto " ++ result_var ++ " = " ++ id.value ++ ";"), c1)
  | .ListExpr elems =>
    -- generate_list_expr
    match process_temp_seq context counter elems [] with
    | none => none
    | some (ctx1, c1, element_vars) =>
      let (result_var, c2) := generate_variable_name c1
      some (ctx1.add_line ("vector<auto> " ++ result_var ++ " = \x7b" ++
        String.intercalate ", " element_vars ++ "\x7d;"), c2)
  | .BinOp left op right =>
    -- generate_binop
    let (left_var, c1) := generate_variable_name counter
    let (right_var, c2) := generate_variable_name c1
    match process_expression context c2 left with
    | none => none
    | some (ctx1, c3) =>
      match process_expression ctx1 c3 right with
      | none => none
      | some (ctx2, c4) =>
        let (result_var, c5) := generate_variable_name c4
        some (ctx2.add_line ("auto " ++ result_var ++ " = " ++ left_var ++ " " ++ op ++
          " " ++ right_var ++ ";"), c5)
  | .UnOp op arg =>
    -- generate_unop
    let (expr_var, c1) := generate_variable_name counter
    match process_expression context c1 arg with
    | none => none
    | some (ctx1, c2) =>
      let (result_var, c3) := generate_variable_name c2
      some (ctx1.add_line ("auto " ++ result_var ++ " = " ++ op ++ expr_var ++ ";"), c3)
  | .FunctionDef _ _ _ => none
  | .ReturnExpr _ => none
  | .NoneExpr => some (context, counter)
  | .Boolean _ => some (context, counter)

/-- The `for expr in .. { process_expression(block, expr) }` loops of
`generate`, `generate_if` and `generate_rep`. -/
def process_seq (context : Block) (counter : Nat) : List Expr → Option (Block × Nat)
  | [] => some (context, counter)
  | e :: rest =>
    match process_expression context counter e with
    | none => none
    | some (ctx1, c1) => process_seq ctx1 c1 rest

/-- The shared shape of the loops in `generate_method_call` and
`generate_list_expr`: for each element, mint a temporary name, lower the
element into the context, and record the minted name. -/
def process_temp_seq (context : Block) (counter : Nat) :
    List Expr → List String → Option (Block × Nat × List String)
  | [], acc => some (context, counter, acc)
  | e :: rest, acc =>
    let (temp_var, c1) := generate_variable_name counter
    match process_expression context c1 e with
    | none => none
    | some (ctx1, c2) => process_temp_seq ctx1 c2 rest (acc ++ [temp_var])

end

/-- `generate`: creates the program wrapper, lowers every top-level
expression into the solve block, and renders the result. The `counter`
argument is the value of the process-wide `static mut COUNTER` before the
invocation; the returned counter is its value afterwards, which a later
invocation in the same process starts from. -/
def generate (ast : Program) (counter : Nat) : Option (String × Nat) :=
  match process_seq CppProgram.new.solve_block counter ast.expressions with
  | none => none
  | some (blk, c) => some ((CppProgram.mk blk).to_string, c)

/-! Defining equations of the checker, stated per constructor and proved by
`rfl`, used to rewrite applications of the mutual definitions in proofs. -/

theorem check_expr_Identifier (tbl : SymbolTable) (id : Identifier) :
    check_expr tbl (.Identifier id) =
      match lookupVar tbl id.value with
      | some t => (tbl, .ok t)
      | none => (tbl, .error ⟨"Undefined variable \x27" ++ id.value ++ "\x27"⟩) := rfl

theorem check_expr_Assignment (tbl : SymbolTable) (target : TypedIdentifier)
    (value : Expr) (ic : Bool) :
    check_expr tbl (.AssignmentExpr target value ic) =
      match check_expr tbl value with
      | (tbl1, .error e) => (tbl1, .error e)
      | (tbl1, .ok rhs_type) =>
        if rhs_type ≠ target.associated_type then
          (tbl1, .error ⟨"Type mismatch in assignment to \x27" ++ target.value.value ++
            "\x27: expected " ++ fmtTy target.associated_type ++ ", got " ++ fmtTy rhs_type⟩)
        else
          (insertVar tbl1 target.value.value target.associated_type,
            .ok target.associated_type) := rfl

theorem check_expr_Reassignment (tbl : SymbolTable) (target : Identifier) (value : Expr) :
    check_expr tbl (.ReassignmentExpr target value) =
      match check_expr tbl value with
      | (tbl1, .error e) => (tbl1, .error e)
      | (tbl1, .ok rhs_type) =>
        match lookupVar tbl1 target.value with
        | none => (tbl1, .error ⟨"Undefined variable \x27" ++ target.value ++ "\x27"⟩)
        | some var_type =>
          if var_type ≠ rhs_type then
            (tbl1, .error ⟨"Type mismatch in reassignment to \x27" ++ target.value ++
              "\x27: expected " ++ fmtTy var_type ++ ", got " ++ fmtTy rhs_type⟩)
          else (tbl1, .ok var_type) := rfl

theorem check_expr_BinOp (tbl : SymbolTable) (left : Expr) (op : String) (right : Expr) :
    check_expr tbl (.BinOp left op right) =
      match check_expr tbl left with
      | (tbl1, .error e) => (tbl1, .error e)
      | (tbl1, .ok left_type) =>
        match check_expr tbl1 right with
        | (tbl2, .error e) => (tbl2, .error e)
        | (tbl2, .ok right_type) =>
          if left_type ≠ right_type then
            (tbl2, .error ⟨"Type mismatch in binary operation \x27" ++ op ++
              "\x27: left is " ++ fmtTy left_type ++ ", right is " ++ fmtTy right_type⟩)
          else if op = "+" ∨ op = "-" ∨ op = "*" ∨ op = "/" then
            if left_type = .Int ∨ left_type = .Float then (tbl2, .ok left_type)
            else
              (tbl2, .error ⟨"Operator \x27" ++ op ++ "\x27 not supported for type " ++
                fmtTy left_type⟩)
          else if op = "==" ∨ op = "!=" ∨ op = "<" ∨ op = ">" ∨ op = "<=" ∨ op = ">=" then
            (tbl2, .ok .Bool)
          else (tbl2, .error ⟨"Unknown operator \x27" ++ op ++ "\x27"⟩) := rfl

theorem check_expr_ListExpr (tbl : SymbolTable) (elems : List Expr) :
    check_expr tbl (.ListExpr elems) =
      match check_list_elems tbl none elems with
      | (tbl1, .error e) => (tbl1, .error e)
      | (tbl1, .ok elem_type) => (tbl1, .ok (.List (elem_type.getD .None))) := rfl

theorem check_expr_Print (tbl : SymbolTable) (arg : Expr) :
    check_expr tbl (.PrintExpr arg) =
      match check_expr tbl arg with
      | (tbl1, .error e) => (tbl1, .error e)
      | (tbl1, .ok _) => (tbl1, .ok .None) := rfl

theorem check_expr_If (tbl : SymbolTable) (condition : Expr)
    (then_exprs : List Expr) (else_exprs : Option (List Expr)) :
    check_expr tbl (.IfExpr condition then_exprs else_exprs) =
      match check_expr tbl condition with
      | (tbl1, .error e) => (tbl1, .error e)
      | (tbl1, .ok cond_type) =>
        if cond_type ≠ .Bool then
          (tbl1, .error ⟨"Condition in if expression must be boolean"⟩)
        else
          match check_seq tbl1 then_exprs with
          | (tbl2, .error e) => (tbl2, .error e)
          | (tbl2, .ok _) =>
            match check_opt_seq tbl2 else_exprs with
            | (tbl3, .error e) => (tbl3, .error e)
            | (tbl3, .ok _) => (tbl3, .ok .None) := rfl

theorem check_opt_seq_none (tbl : SymbolTable) : check_opt_seq tbl none = (tbl, .ok ()) := rfl

theorem check_opt_seq_some (tbl : SymbolTable) (es : List Expr) :
    check_opt_seq tbl (some es) = check_seq tbl es := rfl

theorem check_expr_Rep (tbl : SymbolTable) (num_iterations : Expr) (body : List Expr) :
    check_expr tbl (.RepExpr num_iterations body) =
      match check_expr tbl num_iterations with
      | (tbl1, .error e) => (tbl1, .error e)
      | (tbl1, .ok count_type) =>
        if count_type ≠ .Int then
          (tbl1, .error ⟨"rep count must be int"⟩)
        else
          match check_seq tbl1 body with
          | (tbl2, .error e) => (tbl2, .error e)
          | (tbl2, .ok _) => (tbl2, .ok .None) := rfl

theorem check_expr_FunctionDef (tbl : SymbolTable) (fname : Identifier)
    (args : List TypedIdentifier) (body : List Expr) :
    check_expr tbl (.FunctionDef fname args body) =
      match check_seq (insertArgs tbl args) body with
      | (tbl2, .error e) => (tbl2, .error e)
      | (_, .ok _) =>
        (tbl, .ok (.FunctionType (args.map (·.associated_type)) .None)) := rfl

theorem check_expr_Return (tbl : SymbolTable) (value : Expr) :
    check_expr tbl (.ReturnExpr value) = check_expr tbl value := rfl

theorem check_expr_UnOp (tbl : SymbolTable) (op : String) (arg : Expr) :
    check_expr tbl (.UnOp op arg) =
      match check_expr tbl arg with
      | (tbl1, .error e) => (tbl1, .error e)
      | (tbl1, .ok arg_type) =>
        if op = "-" then
          if arg_type = .Int ∨ arg_type = .Float then (tbl1, .ok arg_type)
          else (tbl1, .error ⟨"Unary \x27-\x27 not supported for type " ++ fmtTy arg_type⟩)
        else if op = "!" then
          if arg_type = .Bool then (tbl1, .ok .Bool)
          else (tbl1, .error ⟨"Unary \x27!\x27 not supported for type " ++ fmtTy arg_type⟩)
        else (tbl1, .error ⟨"Unknown unary operator \x27" ++ op ++ "\x27"⟩) := rfl

theorem check_seq_nil (tbl : SymbolTable) : check_seq tbl [] = (tbl, .ok ()) := rfl

theorem check_seq_cons (tbl : SymbolTable) (e : Expr) (rest : List Expr) :
    check_seq tbl (e :: rest) =
      match check_expr tbl e with
      | (tbl1, .error err) => (tbl1, .error err)
      | (tbl1, .ok _) => check_seq tbl1 rest := rfl

theorem check_list_elems_nil (tbl : SymbolTable) (et : Option Ty) :
    check_list_elems tbl et [] = (tbl, .ok et) := rfl

theorem check_list_elems_cons (tbl : SymbolTable) (et : Option Ty) (e : Expr)
    (rest : List Expr) :
    check_list_elems tbl et (e :: rest) =
      match check_expr tbl e with
      | (tbl1, .error err) => (tbl1, .error err)
      | (tbl1, .ok t) =>
        match et with
        | some et' =>
          if et' ≠ t then
            (tbl1, .error ⟨"List elements have mismatched types: " ++ fmtTy et' ++
              " vs " ++ fmtTy t⟩)
          else check_list_elems tbl1 et rest
        | none => check_list_elems tbl1 (some t) rest := rfl

/-! Symbol-table monotonicity: checking never removes a bound name. -/

/-- Every key bound in `t1` is also bound in `t2`. -/
def preservesKeys (t1 t2 : SymbolTable) : Prop :=
  ∀ k, lookupVar t1 k ≠ none → lookupVar t2 k ≠ none

theorem preservesKeys_refl (t : SymbolTable) : preservesKeys t t := fun _ h => h

theorem preservesKeys_trans {a b c : SymbolTable}
    (h1 : preservesKeys a b) (h2 : preservesKeys b c) : preservesKeys a c :=
  fun k hk => h2 k (h1 k hk)

theorem preservesKeys_insertVar (t : SymbolTable) (k : String) (v : Ty) :
    preservesKeys t (insertVar t k v) := by
  intro k' h
  simp only [insertVar, lookupVar]
  split <;> simp_all

theorem preservesKeys_insertArgs (args : List TypedIdentifier) :
    ∀ t : SymbolTable, preservesKeys t (insertArgs t args) := by
  induction args with
  | nil => intro t; exact preservesKeys_refl t
  | cons a rest ih =>
    intro t
    exact preservesKeys_trans (preservesKeys_insertVar t a.value.value a.associated_type)
      (ih (insertVar t a.value.value a.associated_type))

theorem lookupVar_insertArgs_mem (args : List TypedIdentifier) :
    ∀ t : SymbolTable, ∀ a ∈ args, lookupVar (insertArgs t args) a.value.value ≠ none := by
  induction args with
  | nil => simp
  | cons b rest ih =>
    intro t a ha
    rcases List.mem_cons.1 ha with h | h
    · subst h
      refine preservesKeys_insertArgs rest _ _ ?_
      simp [insertVar, lookupVar]
    · exact ih _ a h

theorem check_seq_preservesKeys_of (es : List Expr)
    (h : ∀ e ∈ es, ∀ tbl : SymbolTable, preservesKeys tbl (check_expr tbl e).1) :
    ∀ tbl : SymbolTable, preservesKeys tbl (check_seq tbl es).1 := by
  induction es with
  | nil => intro tbl; exact preservesKeys_refl tbl
  | cons e rest ih =>
    intro tbl
    rw [check_seq_cons]
    rcases hv : check_expr tbl e with ⟨tbl1, r⟩
    try rw [hv]
    have h1 : preservesKeys tbl tbl1 := by
      have := h e (by simp) tbl; rw [hv] at this; exact this
    cases r with
    | error err => simpa using h1
    | ok t =>
      exact preservesKeys_trans h1 (ih (fun e' he' => h e' (by simp [he'])) tbl1)

theorem check_opt_seq_preservesKeys_of (oes : Option (List Expr))
    (h : ∀ es, oes = some es → ∀ e ∈ es, ∀ tbl : SymbolTable,
      preservesKeys tbl (check_expr tbl e).1) :
    ∀ tbl : SymbolTable, preservesKeys tbl (check_opt_seq tbl oes).1 := by
  cases oes with
  | none => intro tbl; exact preservesKeys_refl tbl
  | some es =>
    intro tbl
    rw [check_opt_seq_some]
    exact check_seq_preservesKeys_of es (h es rfl) tbl

theorem check_list_elems_preservesKeys_of (es : List Expr)
    (h : ∀ e ∈ es, ∀ tbl : SymbolTable, preservesKeys tbl (check_expr tbl e).1) :
    ∀ (tbl : SymbolTable) (et : Option Ty), preservesKeys tbl (check_list_elems tbl et es).1 := by
  induction es with
  | nil => intro tbl et; exact preservesKeys_refl tbl
  | cons e rest ih =>
    intro tbl et
    rw [check_list_elems_cons]
    rcases hv : check_expr tbl e with ⟨tbl1, r⟩
    try rw [hv]
    have h1 : preservesKeys tbl tbl1 := by
      have := h e (by simp) tbl; rw [hv] at this; exact this
    cases r with
    | error err => simpa using h1
    | ok t =>
      dsimp only
      cases et with
      | none => exact preservesKeys_trans h1 (ih (fun e' he' => h e' (by simp [he'])) tbl1 (some t))
      | some et' =>
        dsimp only
        split
        · simpa using h1
        · exact preservesKeys_trans h1 (ih (fun e' he' => h e' (by simp [he'])) tbl1 (some et'))

theorem check_expr_preservesKeys (e : Expr) :
    ∀ tbl : SymbolTable, preservesKeys tbl (check_expr tbl e).1 := by
  cases e with
  | Integer v => intro tbl; exact preservesKeys_refl tbl
  | Float v => intro tbl; exact preservesKeys_refl tbl
  | String v => intro tbl; exact preservesKeys_refl tbl
  | Boolean v => intro tbl; exact preservesKeys_refl tbl
  | NoneExpr => intro tbl; exact preservesKeys_refl tbl
  | MethodCallExpr m a => intro tbl; exact preservesKeys_refl tbl
  | Identifier id =>
    intro tbl
    rw [check_expr_Identifier]
    split <;> exact preservesKeys_refl tbl
  | AssignmentExpr target value ic =>
    intro tbl
    rw [check_expr_Assignment]
    rcases hv : check_expr tbl value with ⟨tbl1, r⟩
    try rw [hv]
    have h1 : preservesKeys tbl tbl1 := by
      have := check_expr_preservesKeys value tbl; rw [hv] at this; exact this
    cases r with
    | error err => simpa using h1
    | ok t =>
      dsimp only
      split
      all_goals
        first
          | simpa using h1
          | exact preservesKeys_trans h1
              (preservesKeys_insertVar tbl1 target.value.value target.associated_type)
  | ReassignmentExpr target value =>
    intro tbl
    rw [check_expr_Reassignment]
    rcases hv : check_expr tbl value with ⟨tbl1, r⟩
    try rw [hv]
    have h1 : preservesKeys tbl tbl1 := by
      have := check_expr_preservesKeys value tbl; rw [hv] at this; exact this
    cases r with
    | error err => simpa using h1
    | ok t =>
      dsimp only
      repeat' split
      all_goals simpa using h1
  | BinOp left op right =>
    intro tbl
    rw [check_expr_BinOp]
    rcases hl : check_expr tbl left with ⟨tbl1, rl⟩
    try rw [hl]
    have h1 : preservesKeys tbl tbl1 := by
      have := check_expr_preservesKeys left tbl; rw [hl] at this; exact this
    cases rl with
    | error err => simpa using h1
    | ok tl =>
      dsimp only
      rcases hr : check_expr tbl1 right with ⟨tbl2, rr⟩
      try rw [hr]
      have h2 : preservesKeys tbl tbl2 := by
        have := check_expr_preservesKeys right tbl1; rw [hr] at this
        exact preservesKeys_trans h1 this
      cases rr with
      | error err => simpa using h2
      | ok tr =>
        dsimp only
        repeat' split
        all_goals simpa using h2
  | ListExpr elems =>
    intro tbl
    rw [check_expr_ListExpr]
    rcases hv : check_list_elems tbl none elems with ⟨tbl1, r⟩
    try rw [hv]
    have h1 : preservesKeys tbl tbl1 := by
      have := check_list_elems_preservesKeys_of elems
        (fun e' he' => check_expr_preservesKeys e') tbl none
      rw [hv] at this; exact this
    cases r <;> simpa using h1
  | PrintExpr arg =>
    intro tbl
    rw [check_expr_Print]
    rcases hv : check_expr tbl arg with ⟨tbl1, r⟩
    try rw [hv]
    have h1 : preservesKeys tbl tbl1 := by
      have := check_expr_preservesKeys arg tbl; rw [hv] at this; exact this
    cases r <;> simpa using h1
  | IfExpr condition then_exprs else_exprs =>
    intro tbl
    rw [check_expr_If]
    rcases hc : check_expr tbl condition with ⟨tbl1, rc⟩
    try rw [hc]
    have h1 : preservesKeys tbl tbl1 := by
      have := check_expr_preservesKeys condition tbl; rw [hc] at this; exact this
    cases rc with
    | error err => simpa using h1
    | ok tc =>
      dsimp only
      split
      · simpa using h1
      · rcases ht : check_seq tbl1 then_exprs with ⟨tbl2, rt⟩
        try rw [ht]
        have h2 : preservesKeys tbl tbl2 := by
          have := check_seq_preservesKeys_of then_exprs
            (fun e' he' => check_expr_preservesKeys e') tbl1
          rw [ht] at this; exact preservesKeys_trans h1 this
        cases rt with
        | error err => simpa using h2
        | ok u =>
          dsimp only
          rcases he : check_opt_seq tbl2 else_exprs with ⟨tbl3, re⟩
          try rw [he]
          have h3 : preservesKeys tbl tbl3 := by
            have := check_opt_seq_preservesKeys_of else_exprs
              (fun es hes e' he' => check_expr_preservesKeys e') tbl2
            rw [he] at this; exact preservesKeys_trans h2 this
          cases re <;> simpa using h3
  | RepExpr num_iterations body =>
    intro tbl
    rw [check_expr_Rep]
    rcases hc : check_expr tbl num_iterations with ⟨tbl1, rc⟩
    try rw [hc]
    have h1 : preservesKeys tbl tbl1 := by
      have := check_expr_preservesKeys num_iterations tbl; rw [hc] at this; exact this
    cases rc with
    | error err => simpa using h1
    | ok tc =>
      dsimp only
      split
      · simpa using h1
      · rcases ht : check_seq tbl1 body with ⟨tbl2, rt⟩
        try rw [ht]
        have h2 : preservesKeys tbl tbl2 := by
          have := check_seq_preservesKeys_of body
            (fun e' he' => check_expr_preservesKeys e') tbl1
          rw [ht] at this; exact preservesKeys_trans h1 this
        cases rt <;> simpa using h2
  | FunctionDef fname args body =>
    intro tbl
    rw [check_expr_FunctionDef]
    rcases hb : check_seq (insertArgs tbl args) body with ⟨tbl2, rb⟩
    try rw [hb]
    have h2 : preservesKeys tbl tbl2 := by
      have := check_seq_preservesKeys_of body
        (fun e' he' => check_expr_preservesKeys e') (insertArgs tbl args)
      rw [hb] at this
      exact preservesKeys_trans (preservesKeys_insertArgs args tbl) this
    cases rb with
    | error err => simpa using h2
    | ok u => exact preservesKeys_refl tbl
  | ReturnExpr value =>
    intro tbl
    rw [check_expr_Return]
    exact check_expr_preservesKeys value tbl
  | UnOp op arg =>
    intro tbl
    rw [check_expr_UnOp]
    rcases hv : check_expr tbl arg with ⟨tbl1, r⟩
    try rw [hv]
    have h1 : preservesKeys tbl tbl1 := by
      have := check_expr_preservesKeys arg tbl; rw [hv] at this; exact this
    cases r with
    | error err => simpa using h1
    | ok t =>
      dsimp only
      repeat' split
      all_goals simpa using h1
termination_by sizeOf e
decreasing_by all_goals first
  | (simp_wf <;> omega)
  | (simp_wf; have := List.sizeOf_lt_of_mem he'; omega)
  | (simp_wf; subst hes; have := List.sizeOf_lt_of_mem he'; simp; omega)

/-! String-prefix helper lemmas for classifying error messages whose middle
parts are abstract. -/

theorem prefixChars_append (ns hs rest : List Char)
    (h : prefixChars ns hs = true) : prefixChars ns (hs ++ rest) = true := by
  induction ns generalizing hs with
  | nil => simp [prefixChars]
  | cons a ns ih =>
    cases hs with
    | nil => simp [prefixChars] at h
    | cons b hs =>
      simp only [prefixChars, Bool.and_eq_true] at h ⊢
      exact ⟨h.1, ih hs h.2⟩

theorem strStarts_append (lit suffix pre : String)
    (h : strStarts lit pre = true) : strStarts (lit ++ suffix) pre = true := by
  unfold strStarts at h ⊢
  rw [String.data_append]
  exact prefixChars_append _ _ _ h

/-! Defining equations of the code generator needed symbolically. -/

theorem process_expression_Assignment (ctx : Block) (counter : Nat)
    (target : TypedIdentifier) (value : Expr) (ic : Bool) :
    process_expression ctx counter (.AssignmentExpr target value ic) =
      match process_expression ctx (counter + 1) value with
      | none => none
      | some (ctx1, c2) =>
        some (ctx1.add_line (get_type_string target.associated_type ++ " " ++
          target.value.value ++ " = " ++ ("var_" ++ toString (counter + 1)) ++ ";"), c2) := rfl

/-! The concrete programs of the specification scenarios. -/

/-- `rep (5) { print(1); }`. -/
def repProgram : Program := ⟨[.RepExpr (.Integer 5) [.PrintExpr (.Integer 1)]]⟩

/-- `let x: Int = 3 + 4; print(x);`. -/
def letPrintProgram : Program :=
  ⟨[.AssignmentExpr ⟨⟨"x"⟩, .Int⟩ (.BinOp (.Integer 3) "+" (.Integer 4)) false,
    .PrintExpr (.Identifier ⟨"x"⟩)]⟩

/-- `if (true) { print(1); } else { print(0); }`. -/
def ifElseProgram : Program :=
  ⟨[.IfExpr (.Boolean true) [.PrintExpr (.Integer 1)] (some [.PrintExpr (.Integer 0)])]⟩

/-- `print(1);`. -/
def printOneProgram : Program := ⟨[.PrintExpr (.Integer 1)]⟩

/-- The statement lines of a block, in order, nested blocks skipped. -/
def statementStrings (b : Block) : List String :=
  b.statements.filterMap fun l =>
    match l with
    | .Statement s => some s
    | .Block _ => none

/-- The immediately nested blocks of a block, in order. -/
def nestedBlocks (b : Block) : List Block :=
  b.statements.filterMap fun l =>
    match l with
    | .Block nb => some nb
    | .Statement _ => none

/-- C1: the claim says the generated counted loop for `rep (5) { print(1); }`
runs from 0 up to the lowered value of 5 and so executes five times. The
generator instead lowers the count 5 into the unused temporary `var_3`,
initializes the loop counter `var_1` and the loop bound `var_2` both to
zero (`int var_2 = var_1;` right after `int var_1 = 0;`), and emits a loop
guarded by `var_1 < var_2`, which therefore executes zero times: the
header never mentions `var_3`, and the bound's initializer never mentions
the count 5. -/
theorem C1_generated_rep_loop_bound_is_zero :
    process_seq CppProgram.new.solve_block 0 repProgram.expressions =
      some (Block.mk (some "void solve() ")
        [ .Statement "int var_3 = 5;",
          .Statement "int var_1 = 0;",
          .Statement "int var_2 = var_1;",
          .Statement "for(int var_1 = 0; var_1 < var_2; var_1++) \x7b",
          .Block (Block.mk none
            [.Statement "int var_5 = 1;", .Statement "cout << var_4 << endl;"] 0),
          .Statement "\x7d" ] 0, 5) ∧
    strContains "for(int var_1 = 0; var_1 < var_2; var_1++) \x7b" "var_3" = false ∧
    strContains "int var_2 = var_1;" "5" = false :=
  ⟨rfl, by decide, by decide⟩

/-- C2: `let x: Int = 3 + 4; print(x);` checks as `Int`, but the generated
statements do not bind `x` to the sum and do not print `x`: the declaration
`int x = var_1;` references the temporary `var_1`, which no emitted
statement declares (the sum lands in `var_6`), and the print statement
prints the undeclared `var_7` rather than `x`. -/
theorem C2_let_print_pipeline :
    check_program [] letPrintProgram = ([("x", .Int)], .ok ()) ∧
    check_expr [] (.AssignmentExpr ⟨⟨"x"⟩, .Int⟩
      (.BinOp (.Integer 3) "+" (.Integer 4)) false) = ([("x", .Int)], .ok .Int) ∧
    (∃ b, process_seq CppProgram.new.solve_block 0 letPrintProgram.expressions =
        some (b, 8) ∧
      statementStrings b =
        ["int var_4 = 3;", "int var_5 = 4;", "auto var_6 = var_2 + var_3;",
         "int x = var_1;", "auto var_8 = x;", "cout << var_7 << endl;"] ∧
      (statementStrings b).filter (fun s => strContains s "var_1") = ["int x = var_1;"] ∧
      (statementStrings b).filter (fun s => strContains s "var_7") =
        ["cout << var_7 << endl;"]) :=
  ⟨rfl, rfl, ⟨_, rfl, rfl, by decide, by decide⟩⟩

/-- C3: the claim says generation surfaces an explicit error result for
return expressions, method calls and other unlowerable constructs, and
never terminates abnormally. The generator instead aborts (the `todo!()`
panic, modelled as `none`) on return expressions and function definitions,
and lowers method calls silently without surfacing any error. -/
theorem C3_codegen_aborts_instead_of_erroring :
    process_expression Block.new 0 (.ReturnExpr (.Integer 1)) = none ∧
    process_expression Block.new 0 (.FunctionDef ⟨"f"⟩ [] []) = none ∧
    generate ⟨[.ReturnExpr (.Integer 1)]⟩ 0 = none ∧
    process_expression Block.new 0 (.MethodCallExpr ⟨"m"⟩ []) =
      some (Block.new.add_line "m.m();", 0) :=
  ⟨rfl, rfl, rfl, rfl⟩

/-- C4: the claim says every nested block's indentation depth is one
greater than its parent's. For the if/else scenario the enclosing solve
block has depth 0 and both branch blocks, built by `Block::new`, also have
depth 0 - equal to, not one greater than, the parent's. -/
theorem C4_nested_blocks_not_deeper :
    ∃ b, process_seq CppProgram.new.solve_block 0 ifElseProgram.expressions =
        some (b, 5) ∧
      b.indent_level = 0 ∧
      (nestedBlocks b).map Block.indent_level = [0, 0] ∧
      ∀ nb ∈ nestedBlocks b, nb.indent_level ≠ b.indent_level + 1 :=
  ⟨_, rfl, rfl, rfl, by decide⟩

/-- C5: the claim says repeated `generate` invocations on the same AST
yield identical text because each invocation owns its own counter. The
counter is a process-wide `static mut` that is never reset, so a second
invocation continues from the first one's final counter and mints different
names: generating `print(1);` twice yields different source text. -/
theorem C5_generate_not_deterministic_across_runs :
    ∃ s1 s2, generate printOneProgram 0 = some (s1, 2) ∧
      generate printOneProgram 2 = some (s2, 4) ∧ s1 ≠ s2 :=
  ⟨_, _, rfl, rfl, by decide⟩

/-- C6: the binary-operation typing rule of `check_expr`: operand type
mismatch is a `TypeMismatch` error regardless of the operator; for equal
operand types the arithmetic operators succeed exactly on `Int`/`Float`
and return the operand type (`UnsupportedOperator` otherwise), the six
comparison operators return `Bool` for any equal operand types, and any
other operator string is an `UnknownOperator` error. -/
theorem C6_binop_typing (tbl tbl1 tbl2 : SymbolTable) (l r : Expr) (op : String)
    (tl tr : Ty)
    (hl : check_expr tbl l = (tbl1, .ok tl))
    (hr : check_expr tbl1 r = (tbl2, .ok tr)) :
    (tl ≠ tr →
      ∃ e, check_expr tbl (.BinOp l op r) = (tbl2, .error e) ∧ isTypeMismatch e = true) ∧
    (tl = tr → (op = "+" ∨ op = "-" ∨ op = "*" ∨ op = "/") →
      ((tl = .Int ∨ tl = .Float) → check_expr tbl (.BinOp l op r) = (tbl2, .ok tl)) ∧
      (¬(tl = .Int ∨ tl = .Float) →
        ∃ e, check_expr tbl (.BinOp l op r) = (tbl2, .error e) ∧
          isUnsupportedOperator e = true)) ∧
    (tl = tr → (op = "==" ∨ op = "!=" ∨ op = "<" ∨ op = ">" ∨ op = "<=" ∨ op = ">=") →
      check_expr tbl (.BinOp l op r) = (tbl2, .ok .Bool)) ∧
    (tl = tr → ¬(op = "+" ∨ op = "-" ∨ op = "*" ∨ op = "/") →
      ¬(op = "==" ∨ op = "!=" ∨ op = "<" ∨ op = ">" ∨ op = "<=" ∨ op = ">=") →
      ∃ e, check_expr tbl (.BinOp l op r) = (tbl2, .error e) ∧
        isUnknownOperator e = true) := by
  have hb := check_expr_BinOp tbl l op r
  rw [hl] at hb
  dsimp only at hb
  rw [hr] at hb
  dsimp only at hb
  refine ⟨?_, ?_, ?_, ?_⟩
  · intro hne
    rw [hb, if_pos hne]
    refine ⟨_, rfl, ?_⟩
    simp only [isTypeMismatch, Bool.or_eq_true]
    left
    repeat apply strStarts_append
    decide
  · intro heq hop
    constructor
    · intro hty
      rw [hb, if_neg (by simp [heq]), if_pos hop, if_pos hty]
    · intro hty
      rw [hb, if_neg (by simp [heq]), if_pos hop, if_neg hty]
      refine ⟨_, rfl, ?_⟩
      simp only [isUnsupportedOperator, Bool.or_eq_true]
      left
      repeat apply strStarts_append
      decide
  · intro heq hop
    have harith : ¬(op = "+" ∨ op = "-" ∨ op = "*" ∨ op = "/") := by
      rcases hop with h | h | h | h | h | h <;> subst h <;> decide
    rw [hb, if_neg (by simp [heq]), if_neg harith, if_pos hop]
  · intro heq harith hcmp
    rw [hb, if_neg (by simp [heq]), if_neg harith, if_neg hcmp]
    refine ⟨_, rfl, ?_⟩
    simp only [isUnknownOperator]
    repeat apply strStarts_append
    decide

/-- C6 witness: `1 + 2` checks to `Int`. -/
theorem C6_binop_typing_witness :
    check_expr [] (.Integer 1) = ([], .ok .Int) ∧
    check_expr [] (.Integer 2) = ([], .ok .Int) ∧
    check_expr [] (.BinOp (.Integer 1) "+" (.Integer 2)) = ([], .ok .Int) :=
  ⟨rfl, rfl,
    ((C6_binop_typing [] [] [] (.Integer 1) (.Integer 2) "+" .Int .Int rfl rfl).2.1
      rfl (Or.inl rfl)).1 (Or.inl rfl)⟩

/-- C7: when a function definition checks successfully the symbol table is
restored to exactly its pre-definition snapshot, so any name that was
unbound before the definition (in particular one bound only by the
parameters or the body) is still unbound afterwards, and referencing it
yields an `UndefinedVariable` error. -/
theorem C7_function_locals_do_not_leak (fname : Identifier)
    (args : List TypedIdentifier) (body : List Expr) (tbl tbl' : SymbolTable) (t : Ty)
    (h : check_expr tbl (.FunctionDef fname args body) = (tbl', .ok t)) :
    tbl' = tbl ∧
    ∀ n : String, lookupVar tbl n = none →
      ∃ e, check_expr tbl' (.Identifier ⟨n⟩) = (tbl', .error e) ∧
        isUndefinedVariable e = true := by
  rw [check_expr_FunctionDef] at h
  rcases hb : check_seq (insertArgs tbl args) body with ⟨tbl2, rb⟩
  rw [hb] at h
  cases rb with
  | error err => simp at h
  | ok u =>
    dsimp only at h
    rw [Prod.mk.injEq] at h
    obtain ⟨h1, h2⟩ := h
    subst h1
    refine ⟨rfl, ?_⟩
    intro n hn
    rw [check_expr_Identifier, hn]
    refine ⟨_, rfl, ?_⟩
    simp only [isUndefinedVariable]
    repeat apply strStarts_append
    decide

/-- C7 witness: a function whose parameter `p` and body-local `y` are bound
only inside the definition; afterwards the table is unchanged and `p` is
undefined. -/
theorem C7_function_locals_do_not_leak_witness :
    check_expr [] (.FunctionDef ⟨"f"⟩ [⟨⟨"p"⟩, .Int⟩]
      [.AssignmentExpr ⟨⟨"y"⟩, .Int⟩ (.Integer 1) false]) =
      ([], .ok (.FunctionType [.Int] .None)) ∧
    lookupVar [] "p" = none ∧
    (∃ e, check_expr [] (.Identifier ⟨"p"⟩) = ([], .error e) ∧
      isUndefinedVariable e = true) :=
  ⟨rfl, rfl,
    (C7_function_locals_do_not_leak ⟨"f"⟩ [⟨⟨"p"⟩, .Int⟩]
      [.AssignmentExpr ⟨⟨"y"⟩, .Int⟩ (.Integer 1) false] [] [] _ rfl).2 "p" rfl⟩

/-- C8: list-literal typing: an empty list checks to `List(None)`; the
first element's type seeds the comparison type; an element whose type
differs from the seeded first-element type stops checking with a
`TypeMismatch` error at that element; matching elements continue; a
homogeneous list checks to `List(elementType)`; and the scenario
`let xs: List(Int) = [1, 2, "a"];` fails with `TypeMismatch`. -/
theorem C8_list_literal_typing :
    (∀ tbl : SymbolTable, check_expr tbl (.ListExpr []) = (tbl, .ok (.List .None))) ∧
    (∀ (tbl tbl1 : SymbolTable) (e : Expr) (rest : List Expr) (t : Ty),
      check_expr tbl e = (tbl1, .ok t) →
      check_list_elems tbl none (e :: rest) = check_list_elems tbl1 (some t) rest) ∧
    (∀ (tbl tbl1 : SymbolTable) (e : Expr) (rest : List Expr) (t u : Ty),
      check_expr tbl e = (tbl1, .ok u) → t ≠ u →
      ∃ err, check_list_elems tbl (some t) (e :: rest) = (tbl1, .error err) ∧
        isTypeMismatch err = true) ∧
    (∀ (tbl tbl1 : SymbolTable) (e : Expr) (rest : List Expr) (t : Ty),
      check_expr tbl e = (tbl1, .ok t) →
      check_list_elems tbl (some t) (e :: rest) = check_list_elems tbl1 (some t) rest) ∧
    (∀ (tbl tbl1 : SymbolTable) (elems : List Expr) (t : Ty),
      check_list_elems tbl none elems = (tbl1, .ok (some t)) →
      check_expr tbl (.ListExpr elems) = (tbl1, .ok (.List t))) ∧
    (∃ err, check_expr [] (.AssignmentExpr ⟨⟨"xs"⟩, .List .Int⟩
        (.ListExpr [.Integer 1, .Integer 2, .String "a"]) false) = ([], .error err) ∧
      isTypeMismatch err = true) := by
  refine ⟨?_, ?_, ?_, ?_, ?_, ?_⟩
  · intro tbl
    rw [check_expr_ListExpr, check_list_elems_nil]
    rfl
  · intro tbl tbl1 e rest t h
    rw [check_list_elems_cons, h]
  · intro tbl tbl1 e rest t u h hne
    rw [check_list_elems_cons, h]
    dsimp only
    rw [if_pos hne]
    refine ⟨_, rfl, ?_⟩
    simp only [isTypeMismatch, Bool.or_eq_true]
    right
    repeat apply strStarts_append
    decide
  · intro tbl tbl1 e rest t h
    rw [check_list_elems_cons, h]
    dsimp only
    rw [if_neg (by simp)]
  · intro tbl tbl1 elems t h
    rw [check_expr_ListExpr, h]
    rfl
  · exact ⟨_, rfl, by decide⟩

/-- C8 witness: seeding with `String` and hitting an `Int` element is a
`TypeMismatch`. -/
theorem C8_list_literal_typing_witness :
    check_expr [] (.Integer 1) = ([], .ok .Int) ∧
    Ty.String ≠ Ty.Int ∧
    (∃ err, check_list_elems [] (some .String) [.Integer 1] = ([], .error err) ∧
      isTypeMismatch err = true) :=
  ⟨rfl, by decide,
    C8_list_literal_typing.2.2.1 [] [] (.Integer 1) [] .String .Int rfl (by decide)⟩

/-- C9 counterexample: for `const x: Int = 3;` (const flag set) the
generator emits `int x = var_1;` with no immutability qualifier anywhere:
the claim that a set const flag yields a `const`-qualified declaration is
false on this input. -/
theorem C9_const_assignment_counterexample :
    process_expression Block.new 0 (.AssignmentExpr ⟨⟨"x"⟩, .Int⟩ (.Integer 3) true) =
      some (Block.mk none
        [.Statement "int var_2 = 3;", .Statement "int x = var_1;"] 0, 2) ∧
    (∀ s ∈ statementStrings
        (Block.mk none [.Statement "int var_2 = 3;", .Statement "int x = var_1;"] 0),
      strContains s "const" = false) :=
  ⟨rfl, by decide⟩

/-- C9 amended: the emitted declaration ignores the const-ness flag
entirely (the statement is the same for either flag value and carries no
qualifier derived from it); it uses the type-mapping table
(`Int`→`int`, `String`→`string`, `List(T)`→`vector<mapped T>`, every other
type→`auto`) and is initialized to the freshly minted temporary name
`var_{c+1}` - which, because of the generator's temp-name mismatch, is not
the name the lowered value was actually bound to. -/
theorem C9_assignment_declaration_ignores_const (target : TypedIdentifier)
    (value : Expr) (is_const : Bool) (ctx ctx' : Block) (c c' : Nat)
    (h : process_expression ctx (c + 1) value = some (ctx', c')) :
    process_expression ctx c (.AssignmentExpr target value is_const) =
      some (ctx'.add_line (get_type_string target.associated_type ++ " " ++
        target.value.value ++ " = " ++ ("var_" ++ toString (c + 1)) ++ ";"), c') ∧
    get_type_string .Int = "int" ∧
    get_type_string .String = "string" ∧
    (∀ t, get_type_string (.List t) = "vector<" ++ get_type_string t ++ ">") ∧
    get_type_string .Float = "auto" ∧
    get_type_string .Bool = "auto" ∧
    get_type_string .None = "auto" ∧
    (∀ ts, get_type_string (.Tuple ts) = "auto") ∧
    (∀ ps ret, get_type_string (.FunctionType ps ret) = "auto") := by
  refine ⟨?_, rfl, rfl, fun t => rfl, rfl, rfl, rfl, fun ts => rfl, fun ps ret => rfl⟩
  rw [process_expression_Assignment, h]

/-- C9 witness: `const x: Int = 7;` at counter 0. -/
theorem C9_assignment_declaration_ignores_const_witness :
    process_expression Block.new (0 + 1) (.Integer 7) =
      some (Block.new.add_line "int var_2 = 7;", 2) ∧
    process_expression Block.new 0 (.AssignmentExpr ⟨⟨"x"⟩, .Int⟩ (.Integer 7) true) =
      some ((Block.new.add_line "int var_2 = 7;").add_line
        (get_type_string .Int ++ " " ++ "x" ++ " = " ++ ("var_" ++ toString (0 + 1)) ++ ";"), 2) :=
  ⟨rfl,
    (C9_assignment_declaration_ignores_const ⟨⟨"x"⟩, .Int⟩ (.Integer 7) true
      Block.new (Block.new.add_line "int var_2 = 7;") 0 2 rfl).1⟩

/-- C10: if checking a function body fails, the error propagates
immediately and the symbol table is left exactly as the failing body check
left it - the pre-definition snapshot is not restored - so every parameter
of the definition is still bound in the resulting table. -/
theorem C10_function_body_error_keeps_bindings (fname : Identifier)
    (args : List TypedIdentifier) (body : List Expr) (tbl tbl2 : SymbolTable)
    (err : TypeError)
    (h : check_seq (insertArgs tbl args) body = (tbl2, .error err)) :
    check_expr tbl (.FunctionDef fname args body) = (tbl2, .error err) ∧
    ∀ a ∈ args, lookupVar tbl2 a.value.value ≠ none := by
  constructor
  · rw [check_expr_FunctionDef, h]
  · intro a ha
    have h1 : lookupVar (insertArgs tbl args) a.value.value ≠ none :=
      lookupVar_insertArgs_mem args tbl a ha
    have h2 : preservesKeys (insertArgs tbl args)
        (check_seq (insertArgs tbl args) body).1 :=
      check_seq_preservesKeys_of body
        (fun e' he' => check_expr_preservesKeys e') (insertArgs tbl args)
    have h3 := h2 _ h1
    rw [h] at h3
    simpa using h3

/-- C10 witness: `fn f(p: Int) { q; }` with `q` undefined: the body check
fails and the parameter `p` stays in the table. -/
theorem C10_function_body_error_keeps_bindings_witness :
    check_seq (insertArgs [] [⟨⟨"p"⟩, .Int⟩]) [.Identifier ⟨"q"⟩] =
      ([("p", .Int)], .error ⟨"Undefined variable \x27q\x27"⟩) ∧
    check_expr [] (.FunctionDef ⟨"f"⟩ [⟨⟨"p"⟩, .Int⟩] [.Identifier ⟨"q"⟩]) =
      ([("p", .Int)], .error ⟨"Undefined variable \x27q\x27"⟩) ∧
    (∀ a ∈ ([⟨⟨"p"⟩, .Int⟩] : List TypedIdentifier),
      lookupVar [("p", .Int)] a.value.value ≠ none) :=
  ⟨rfl,
    (C10_function_body_error_keeps_bindings ⟨"f"⟩ [⟨⟨"p"⟩, .Int⟩] [.Identifier ⟨"q"⟩]
      [] [("p", .Int)] ⟨"Undefined variable \x27q\x27"⟩ rfl).1,
    (C10_function_body_error_keeps_bindings ⟨"f"⟩ [⟨⟨"p"⟩, .Int⟩] [.Identifier ⟨"q"⟩]
      [] [("p", .Int)] ⟨"Undefined variable \x27q\x27"⟩ rfl).2⟩

end BBL
